import Mathlib

/-!
Verification of the webhook-handling contract of the Vuetify JsonForms form
trigger node (a shallow embedding of `src/unnamed/part_000` — the current
`VuetifyJsonFormsTrigger` class, lines 1-882 — and
`src/nodes/VuetifyJsonForms/utils.ts`).

External collaborators (the `isbot` library, `jsonwebtoken`'s `jwt.verify`,
the `ajv` schema validator, luxon's `DateTime.now().setZone(tz).toISO()`,
the `sanitizeCustomCss` helper whose source is not in `src/`, and the
`basic-auth` header decoder) are modelled as function-valued fields of a
`Host` environment record; everything the repository's own code does with
their results is embedded faithfully.
-/

namespace VuetifyJsonForms

/-- JSON values as the handler sees them after `JSON.parse` (numbers as
integers suffice for the claims; objects keep field order). -/
inductive Json where
  | null : Json
  | bool (b : Bool) : Json
  | num (n : Int) : Json
  | str (s : String) : Json
  | arr (elems : List Json) : Json
  | obj (fields : List (String × Json)) : Json

/-- First-match field lookup inside an object's field list (JS member access
on a parsed object). -/
def lookupField : List (String × Json) → String → Option Json
  | [], _ => none
  | (k, v) :: rest, key => if k = key then some v else lookupField rest key

/-- JS member access `value[key]`: a field of an object, `undefined` (none)
otherwise. -/
def jsonLookup : Json → String → Option Json
  | Json.obj fields, key => lookupField fields key
  | _, _ => none

/-- Decrypted `httpBasicAuth` credential (`user`, `password`). -/
structure BasicCred where
  user : String
  password : String
deriving DecidableEq

/-- Decrypted `httpHeaderAuth` credential (`name`, `value`). -/
structure HeaderCred where
  name : String
  value : String
deriving DecidableEq

/-- Decrypted `jwtAuth` credential as read in `utils.ts`. -/
structure JwtCred where
  keyType : String
  publicKey : String
  secret : String
  algorithm : String
deriving DecidableEq

/-- The `WebhookAuthorizationError` of `./error`: constructed throughout
`utils.ts` and the webhook with a response code and an optional message
(its `responseCode` field is what the thrown error carries). -/
structure WebhookAuthorizationError where
  responseCode : Nat
  message : Option String := none
deriving DecidableEq

/-- The `values` object of the `respondWithOptions` fixed collection. -/
structure RespondWithValues where
  respondWith : String
  formSubmittedText : Option String := none
  redirectUrl : Option String := none
deriving DecidableEq

/-- The node's `options` collection parameter; `none` is a JS `undefined`
field. -/
structure FormOptions where
  ignoreBots : Option Bool := none
  respondWithOptions : Option RespondWithValues := none
  formSubmittedText : Option String := none
  useWorkflowTimezone : Option Bool := none
  customCss : Option String := none
  customStyle : Option String := none
  vuetifyOptions : Option String := none
  readonly : Option Bool := none
  validationMode : Option String := none
  eventJsonSchema : Option String := none
deriving DecidableEq

/-- A node connected downstream, as returned by `context.getChildNodes`:
its type string and (with `includeNodeParameters`) its `resume` parameter. -/
structure ChildNode where
  type : String
  resumeParam : Option String := none
deriving DecidableEq

/-- `FORM_NODE_TYPE` from `n8n-workflow`. -/
def FORM_NODE_TYPE : String := "n8n-nodes-base.form"

/-- `WAIT_NODE_TYPE` from `n8n-workflow`. -/
def WAIT_NODE_TYPE : String := "n8n-nodes-base.wait"

/-- JS truthiness of a possibly-undefined string (`undefined` and `""` are
falsy). -/
def truthyStr : Option String → Bool
  | none => false
  | some s => s != ""

/-- JS truthiness of a possibly-undefined boolean. -/
def truthyBool : Option Bool → Bool
  | none => false
  | some b => b

/-- The external collaborators the handler calls, fixed for a request:
`isbot`, `jwt.verify` (together with the key selection/`formatPrivateKey`
formatting applied to the credential), `sanitizeCustomCss` (repository code
not present under `src/`), luxon's ISO rendering of the current instant in a
zone (`toISO` may return null), the workflow timezone (`getTimezone`), the
execution mode (`getMode`), and ajv's compile-then-validate
(`allErrors: true`: the returned error list is empty exactly when the
candidate — `some v` a value, `none` a JS `undefined` — is valid). -/
structure Host where
  isbot : Option String → Bool
  jwtVerify : String → JwtCred → Except String Json
  sanitizeCustomCss : Option String → Option String
  nowISO : String → Option String
  timezone : String
  mode : String
  compileValidate : String → Option Json → List Json

/-- The node's configuration: parameter values, decrypted credentials
(`none` when `getCredentials` threw or the credential is not set), node
identity and the downstream node list. -/
structure Config where
  authentication : String := "none"
  basicCred : Option BasicCred := none
  bearerToken : Option String := none
  headerCred : Option HeaderCred := none
  jwtCred : Option JwtCred := none
  jsonSchema : String := ""
  uiSchema : String := ""
  data : String := ""
  config : String := ""
  responseMode : Option String := none
  options : FormOptions := {}
  nodeName : String := ""
  typeVersion : ℚ := 1
  childNodes : List ChildNode := []

/-- An inbound HTTP request: method, user-agent, lower-cased header map,
the decoded HTTP Basic pair (`basic-auth`'s parse of the Authorization
header, `none` when absent/malformed), the parsed JSON body, and the query
parameters (`none` when `req.query` is undefined). -/
structure Request where
  method : String
  userAgent : Option String := none
  headers : List (String × String) := []
  providedBasic : Option BasicCred := none
  body : Json := Json.null
  query : Option (List (String × String)) := none

/-- First header with the given (already lower-cased) name. -/
def lookupHeader (headers : List (String × String)) (key : String) : Option String :=
  (headers.find? (fun h => h.fst == key)).map Prod.snd

/-- The message used for every 500 authorization error in `utils.ts`. -/
def noAuthDataMessage : String := "No authentication data defined on node!"

/-- `validateWebhookAuthentication` (`utils.ts` lines 86-223): dispatch on
the `authentication` parameter; `Except.error` is a thrown
`WebhookAuthorizationError`, `Except.ok` the normal return (the JWT payload
for `jwtAuth`, nothing otherwise; an unknown mode falls through every
branch and returns normally). -/
def validateWebhookAuthentication (host : Host) (cfg : Config) (req : Request) :
    Except WebhookAuthorizationError (Option Json) :=
  if cfg.authentication = "none" then Except.ok none
  else if cfg.authentication = "basicAuth" then
    match cfg.basicCred with
    | none => Except.error ⟨500, some noAuthDataMessage⟩
    | some expectedAuth =>
      if expectedAuth.user = "" ∨ expectedAuth.password = "" then
        Except.error ⟨500, some noAuthDataMessage⟩
      else
        match req.providedBasic with
        | none => Except.error ⟨401, none⟩
        | some providedAuth =>
          if providedAuth.user ≠ expectedAuth.user ∨
              providedAuth.password ≠ expectedAuth.password then
            Except.error ⟨403, none⟩
          else Except.ok none
  else if cfg.authentication = "bearerAuth" then
    match cfg.bearerToken with
    | none => Except.error ⟨500, some noAuthDataMessage⟩
    | some expectedToken =>
      if expectedToken = "" then Except.error ⟨500, some noAuthDataMessage⟩
      else if lookupHeader req.headers "authorization" ≠ some ("Bearer " ++ expectedToken) then
        Except.error ⟨403, none⟩
      else Except.ok none
  else if cfg.authentication = "headerAuth" then
    match cfg.headerCred with
    | none => Except.error ⟨500, some noAuthDataMessage⟩
    | some expectedAuth =>
      if expectedAuth.name = "" ∨ expectedAuth.value = "" then
        Except.error ⟨500, some noAuthDataMessage⟩
      else if lookupHeader req.headers expectedAuth.name.toLower ≠ some expectedAuth.value then
        Except.error ⟨403, none⟩
      else Except.ok none
  else if cfg.authentication = "jwtAuth" then
    match cfg.jwtCred with
    | none => Except.error ⟨500, some noAuthDataMessage⟩
    | some expectedAuth =>
      match
        (match lookupHeader req.headers "authorization" with
         | none => none
         | some authHeader =>
           match (authHeader.splitOn " ").get? 1 with
           | none => none
           | some t => if t = "" then none else some t) with
      | none => Except.error ⟨401, some "No token provided"⟩
      | some token =>
        match host.jwtVerify token expectedAuth with
        | Except.ok payload => Except.ok (some payload)
        | Except.error msg => Except.error ⟨403, some msg⟩
  else Except.ok none

/-- Whether a `Respond to Webhook` node is connected downstream
(`utils.ts` lines 45-47). -/
def respondToWebhookConnected (nodes : List ChildNode) : Bool :=
  nodes.any (fun node => node.type == "n8n-nodes-base.respondToWebhook")

/-- `validateResponseModeConfiguration` (`utils.ts` lines 40-83):
`Except.error` is a thrown `NodeOperationError`, carried as its message. -/
def validateResponseModeConfiguration (cfg : Config) : Except String Unit :=
  if respondToWebhookConnected cfg.childNodes = false ∧
      cfg.responseMode.getD "onReceived" = "responseNode" then
    Except.error "No Respond to Webhook node found in the workflow"
  else if respondToWebhookConnected cfg.childNodes = true ∧
      cfg.responseMode.getD "onReceived" ≠ "responseNode" ∧ cfg.typeVersion ≤ 2.1 then
    Except.error (cfg.nodeName ++ " node not correctly configured")
  else if respondToWebhookConnected cfg.childNodes = true ∧ cfg.typeVersion > 2.1 then
    Except.error "The \"Respond to Webhook\" node is not supported in workflows initiated by the \"n8n Form Trigger\""
  else Except.ok ()

/-- `VuetifyJsonFormsTrigger.isFormConnected` (lines 513-519): a
form-continuation node, or a wait node resuming on form. -/
def isFormConnected (nodes : List ChildNode) : Bool :=
  nodes.any (fun n =>
    n.type == FORM_NODE_TYPE ||
    (n.type == WAIT_NODE_TYPE && n.resumeParam == some "form"))

/-- The custom submitted text before defaulting (`generateFormHtml` lines
551-562): from `respondWithOptions.values` when that collection is present
(only for `respondWith === "text"`), else the legacy `formSubmittedText`
option. -/
def customSubmittedText (options : FormOptions) : Option String :=
  match options.respondWithOptions with
  | some values => if values.respondWith = "text" then values.formSubmittedText else none
  | none => options.formSubmittedText

/-- The configured redirect URL (`generateFormHtml` lines 551-559): only
from `respondWithOptions.values` with `respondWith === "redirect"`. -/
def customRedirectUrl (options : FormOptions) : Option String :=
  match options.respondWithOptions with
  | some values => if values.respondWith = "redirect" then values.redirectUrl else none
  | none => none

/-- The default text applied when no custom submitted text was determined
(`generateFormHtml` lines 574-576). -/
def defaultFormSubmittedText : String := "Your response has been recorded"

/-- The submitted-text / redirect / response-mode triple the page is built
from. -/
structure ResolvedFormResponse where
  formSubmittedText : String
  redirectUrl : Option String
  responseMode : String
deriving DecidableEq

/-- `generateFormHtml` lines 551-578: resolve text and redirect from the
options, then let a downstream wait-for-form connection override both the
redirect (discarded) and the response mode (forced to `responseNode`),
then default the submitted text. -/
def resolveFormResponse (options : FormOptions) (responseMode : String)
    (connectedNodes : List ChildNode) : ResolvedFormResponse :=
  let hasNextPage := isFormConnected connectedNodes
  { formSubmittedText := (customSubmittedText options).getD defaultFormSubmittedText
    redirectUrl := if hasNextPage then none else customRedirectUrl options
    responseMode := if hasNextPage then "responseNode" else responseMode }

/-- JSON.stringify of a string value (the common escapes; the template only
ever stringifies strings). -/
def jsEscapeChar (c : Char) : String :=
  if c = '"' then "\\\""
  else if c = '\\' then "\\\\"
  else if c = '\n' then "\\n"
  else if c = '\r' then "\\r"
  else if c = '\t' then "\\t"
  else String.singleton c

/-- JSON.stringify on a string. -/
def jsStringify (s : String) : String :=
  "\"" ++ String.join (s.data.map jsEscapeChar) ++ "\""

/-- JSON.stringify on a possibly-undefined string: stringifying `undefined`
yields the value `undefined`, which string concatenation renders as the
word `undefined`. -/
def jsStringifyOpt : Option String → String
  | some s => jsStringify s
  | none => "undefined"

/-- `.replace(/\//g, "\\/")`: escape forward slashes to avoid premature
script-tag termination. -/
def escapeSlashes (s : String) : String := s.replace "/" "\\/"

/-- A serialized attribute value as the template builds it:
`JSON.stringify(x).replace(/\//g, "\\/")`. -/
def attrLiteral (s : String) : String := escapeSlashes (jsStringify s)
def htmlChunk0 : String :=
  "\n" ++
  "<!DOCTYPE html>\n" ++
  "<html>\n" ++
  "\t<head>\n" ++
  "\t\t<meta charset='UTF-8' />\n" ++
  "\t\t<meta name='viewport' content='width=device-width, initial-scale=1.0' />\n" ++
  "\t\t<link href=\"https://fonts.googleapis.com/css2?family=Open+Sans:ital,wght@0,300..800;1,300..800&display=swap\" rel=\"stylesheet\">\n" ++
  "\n" ++
  "    <style>\n" ++
  "    :root \x7b\n" ++
  "\t\t\t\t/* Fonts */\n" ++
  "\t\t\t\t--font-family: \"Open Sans\", sans-serif;\n" ++
  "\t\t\t\t--font-size-body: 12px;\n" ++
  "\n" ++
  "\t\t\t\t/* Colors */\n" ++
  "\t\t\t\t--color-background: #fbfcfe;\n" ++
  "\t\t\t\t--color-card-bg: #ffffff;\n" ++
  "\t\t\t\t--color-card-border: #dbdfe7;\n" ++
  "\t\t\t\t--color-card-shadow: rgba(99, 77, 255, 0.06);\n" ++
  "\t\t\t\t--color-input-border: #dbdfe7;\n" ++
  "\n" ++
  "\t\t\t\t/* Border Radii */\n" ++
  "\t\t\t\t--border-radius-card: 8px;\n" ++
  "\n" ++
  "\t\t\t\t/* Spacing */\n" ++
  "\t\t\t\t--padding-container-top: 24px;\n" ++
  "\t\t\t\t--padding-card: 24px;\n" ++
  "\t\t\t\t--margin-bottom-card: 16px;\n" ++
  "\n" ++
  " \t\t\t\t/* Dimensions */\n" ++
  "\t\t\t\t--container-width: 448px;\n" ++
  "\n" ++
  "\t\t\t\t/* Others */\n" ++
  "\t\t\t\t--box-shadow-card: 0px 4px 16px 0px var(--color-card-shadow);\n" ++
  "\t\t\t\x7d\n" ++
  "\n" ++
  " \t\t\t*,\n" ++
  "\t\t\t::after,\n" ++
  "\t\t\t::before \x7b\n" ++
  "\t\t\t\tbox-sizing: border-box;\n" ++
  "\t\t\t\tmargin: 0;\n" ++
  "\t\t\t\tpadding: 0;\n" ++
  "\t\t\t\x7d\n" ++
  "\n" ++
  "      body \x7b\n" ++
  "\t\t\t\tfont-family: var(--font-family);\n" ++
  "\t\t\t\tfont-weight: 400;\n" ++
  "\t\t\t\tfont-size: var(--font-size-body);\n" ++
  "\t\t\t\tdisplay: flex;\n" ++
  "\t\t\t\tflex-direction: column;\n" ++
  "\t\t\t\tjustify-content: start;\n" ++
  "\t\t\t\tbackground-color: var(--color-background);\n" ++
  "\t\t\t\x7d\n" ++
  "\n" ++
  "      .container \x7b\n" ++
  "\t\t\t\tmargin: auto;\n" ++
  "\t\t\t\ttext-align: center;\n" ++
  "\t\t\t\tpadding-top: var(--padding-container-top);\n" ++
  "\t\t\t\twidth: var(--container-width);\n" ++
  "\t\t\t\x7d\n" ++
  "\n" ++
  "\n" ++
  " \t\t\t.card \x7b\n" ++
  "\t\t\t\tpadding: var(--padding-card);\n" ++
  "\t\t\t\tbackground-color: var(--color-card-bg);\n" ++
  "\t\t\t\tborder: 1px solid var(--color-card-border);\n" ++
  "\t\t\t\tborder-radius: var(--border-radius-card);\n" ++
  "\t\t\t\tbox-shadow: var(--box-shadow-card);\n" ++
  "\t\t\t\tmargin-bottom: var(--margin-bottom-card);\n" ++
  "\t\t\t\x7d\n" ++
  "\n" ++
  "      @media only screen and (max-width: 500px) \x7b\n" ++
  "\t\t\t\tbody \x7b\n" ++
  "\t\t\t\t\tbackground-color: var(--color-background);\n" ++
  "\t\t\t\t\x7d\n" ++
  "        .container \x7b\n" ++
  "\t\t\t\t\twidth: 95%;\n" ++
  "\t\t\t\t\tmin-height: 100vh;\n" ++
  "\t\t\t\t\tpadding: 24px;\n" ++
  "\t\t\t\t\tborder: 0px solid var(--color-input-border);\n" ++
  "\t\t\t\t\tborder-radius: 0px;\n" ++
  "\t\t\t\t\tbox-shadow: 0px 0px 0px 0px #ffffff;\n" ++
  "\t\t\t\t\x7d\n" ++
  "\t\t\t\t.card \x7b\n" ++
  "\t\t\t\t\tpadding: 0px;\n" ++
  "\t\t\t\t\tbackground-color: var(--color-card-bg);\n" ++
  "\t\t\t\t\tborder: 0px solid var(--color-input-border);\n" ++
  "\t\t\t\t\tborder-radius: 0px;\n" ++
  "\t\t\t\t\tbox-shadow: 0px 0px 0px 0px #ffffff;\n" ++
  "\t\t\t\t\tmargin-bottom: 0px;\n" ++
  "\t\t\t\t\x7d\n" ++
  "\t\t\t\x7d\n" ++
  "\n" ++
  "    </style>\n" ++
  "\n" ++
  "    "

def htmlChunk1 : String :=
  "\n" ++
  "  </head>\n" ++
  "  <body>\n" ++
  "\t\t<div class='container'>\n" ++
  "      <div class='card' id='n8n-form'>\n" ++
  "        <vuetify-json-forms id=\"vuetify-json-forms\"></vuetify-json-forms>\n" ++
  "      </div>\n" ++
  "\n" ++
  "      <div class='card' id='submitted-form' style='display: none;'>\n" ++
  "        <div class='form-header'>\n" ++
  "          <h1 id='submitted-header'>Form Submitted</h1>\n" ++
  "          "

def htmlChunk2 : String :=
  "\n" ++
  "        </div>\n" ++
  "      </div>\n" ++
  "      "

def htmlChunk3 : String :=
  "\n" ++
  "      <input id=\"useResponseData\" style=\"display: none;\" value="

def htmlChunk4 : String :=
  " />\n" ++
  "    </div>\n" ++
  "\n" ++
  "    <script type=\"text/javascript\">\n" ++
  "\n" ++
  "\t\t\tconst n8nForm = document.querySelector('#n8n-form');\n" ++
  "\n" ++
  "    \tlet interval = 1000;\n" ++
  "\t\t\tlet timeoutId;\n" ++
  "\t\t\tlet formWaitingUrl;\n" ++
  "\n" ++
  "\t\t\tconst checkExecutionStatus = async () => \x7b\n" ++
  "\t\t\t\tif (!interval) return;\n" ++
  "\n" ++
  "\t\t\t\ttry \x7b\n" ++
  "\t\t\t\t\tconst response = await fetch(`$\x7bformWaitingUrl ?? window.location.href\x7d/n8n-execution-status`);\n" ++
  "\t\t\t\t\tconst text = (await response.text()).trim();\n" ++
  "\n" ++
  "\t\t\t\t\tif (text === \"form-waiting\") \x7b\n" ++
  "\t\t\t\t\t\twindow.location.replace(formWaitingUrl ?? window.location.href);\n" ++
  "\t\t\t\t\t\treturn;\n" ++
  "\t\t\t\t\t\x7d\n" ++
  "\n" ++
  "\t\t\t\t\tif (text === \"success\") \x7b\n" ++
  "\t\t\t\t\t\tn8nForm.style.display = 'none';\n" ++
  "\t\t\t\t\t\tdocument.querySelector('#submitted-form').style.display = 'block';\n" ++
  "\t\t\t\t\t\tclearTimeout(timeoutId);\n" ++
  "\t\t\t\t\t\treturn;\n" ++
  "\t\t\t\t\t\x7d\n" ++
  "\n" ++
  "\t\t\t\t\tif (text === \"null\") \x7b\n" ++
  "\t\t\t\t\t\tn8nForm.style.display = 'none';\n" ++
  "\t\t\t\t\t\tdocument.querySelector('#submitted-form').style.display = 'block';\n" ++
  "\t\t\t\t\t\tdocument.querySelector('#submitted-header').textContent = 'Could not get execution status';\n" ++
  "\t\t\t\t\t\tdocument.querySelector('#submitted-content').textContent =\n" ++
  "\t\t\t\t\t\t\t'Make sure \"Save successful production executions\" is enabled in your workflow settings';\n" ++
  "\t\t\t\t\t\tclearTimeout(timeoutId);\n" ++
  "\t\t\t\t\t\treturn;\n" ++
  "\t\t\t\t\t\x7d\n" ++
  "\n" ++
  "\t\t\t\t\tif([\"canceled\", \"crashed\", \"error\" ].includes(text)) \x7b\n" ++
  "\t\t\t\t\t\tn8nForm.style.display = 'none';\n" ++
  "\t\t\t\t\t\tdocument.querySelector('#submitted-form').style.display = 'block';\n" ++
  "\t\t\t\t\t\tdocument.querySelector('#submitted-header').textContent = 'Problem submitting response';\n" ++
  "\t\t\t\t\t\tdocument.querySelector('#submitted-content').textContent =\n" ++
  "\t\t\t\t\t\t\t'Please try again or contact support if the problem persists';\n" ++
  "\t\t\t\t\t\tclearTimeout(timeoutId);\n" ++
  "\t\t\t\t\t\treturn;\n" ++
  "\t\t\t\t\t\x7d\n" ++
  "\n" ++
  "\t\t\t\t\tinterval = Math.round(interval * 1.1);\n" ++
  "\t\t\t\t\ttimeoutId = setTimeout(checkExecutionStatus, interval);\n" ++
  "\t\t\t\t\x7d catch (error) \x7b\n" ++
  "\t\t\t\t\tconsole.error(\"Error fetching data:\", error);\n" ++
  "\t\t\t\t\x7d\n" ++
  "\t\t\t\x7d;\n" ++
  "\n" ++
  "\n" ++
  "      const onChange = (customEvent) => \x7b\n" ++
  "        let [event] = customEvent.detail;\n" ++
  "\n" ++
  "        if (event.errors && event.errors.length > 0) \x7b\n" ++
  "          // just dump the errors in the JS console if there are errors\n" ++
  "          console.log(\"Form state errors:\", JSON.stringify(event.errors));\n" ++
  "        \x7d\n" ++
  "      \x7d;\n" ++
  "\n" ++
  "      const submit = async (event) => \x7b\n" ++
  "        const data = event.context.data;\n" ++
  "\n" ++
  "        if (event.context.errors && event.context.errors.length > 0) \x7b\n" ++
  "          alert('Fix Errors');\n" ++
  "        \x7d else \x7b\n" ++
  "          try \x7b\n" ++
  "            event.context.readonly = true;\n" ++
  "\n" ++
  "            let postUrl = '';\n" ++
  "            if (!window.location.href.includes('form-waiting')) \x7b\n" ++
  "              postUrl = window.location.search;\n" ++
  "            \x7d\n" ++
  "\n" ++
  "            const response = await fetch(postUrl, \x7b method: 'POST', body: JSON.stringify( \x7b data: data, event: event.params \x7d ) \x7d);\n" ++
  "            const useResponseData = document.getElementById(\"useResponseData\").value;\n" ++
  "\n" ++
  "            if (useResponseData === \"true\") \x7b\n" ++
  "              const text = await response.text();\n" ++
  "              let json;\n" ++
  "\n" ++
  "              try\x7b\n" ++
  "                json = JSON.parse(text);\n" ++
  "              \x7d catch (e) \x7b\x7d\n" ++
  "\n" ++
  "              if(json?.formWaitingUrl) \x7b\n" ++
  "                formWaitingUrl = json.formWaitingUrl;\n" ++
  "                clearTimeout(timeoutId);\n" ++
  "                timeoutId = setTimeout(checkExecutionStatus, interval);\n" ++
  "                return;\n" ++
  "              \x7d\n" ++
  "\n" ++
  "              if (json?.redirectURL) \x7b\n" ++
  "                const url = json.redirectURL.includes(\"://\") ? json.redirectURL : \"https://\" + json.redirectURL;\n" ++
  "                window.location.replace(url);\n" ++
  "                return;\n" ++
  "              \x7d\n" ++
  "\n" ++
  "              if (json?.formSubmittedText) \x7b\n" ++
  "                n8nForm.style.display = 'none';\n" ++
  "                document.querySelector('#submitted-form').style.display = 'block';\n" ++
  "                document.querySelector('#submitted-content').textContent = json.formSubmittedText;\n" ++
  "                return;\n" ++
  "              \x7d\n" ++
  "\n" ++
  "              if (text) \x7b\n" ++
  "                document.body.innerHTML = text;\n" ++
  "                return;\n" ++
  "              \x7d\n" ++
  "\n" ++
  "              if (text === '') \x7b\n" ++
  "                // this is empty cleanup response from responsePromise\n" ++
  "                // no need to keep checking execution status\n" ++
  "                clearTimeout(timeoutId);\n" ++
  "                interval = 0;\n" ++
  "              \x7d\n" ++
  "            \x7d\n" ++
  "\n" ++
  "            if (response.status === 200) \x7b\n" ++
  "              if(response.redirected) \x7b\n" ++
  "                window.location.replace(response.url);\n" ++
  "                return;\n" ++
  "              \x7d\n" ++
  "              const redirectUrl = document.getElementById(\"redirectUrl\");\n" ++
  "              if (redirectUrl) \x7b\n" ++
  "                window.location.replace(redirectUrl.href);\n" ++
  "              \x7d else \x7b\n" ++
  "                n8nForm.style.display = 'none';\n" ++
  "                document.querySelector('#submitted-form').style.display = 'block';\n" ++
  "              \x7d\n" ++
  "            \x7d else \x7b\n" ++
  "              n8nForm.style.display = 'none';\n" ++
  "              document.querySelector('#submitted-form').style.display = 'block';\n" ++
  "              document.querySelector('#submitted-header').textContent = 'Problem submitting response';\n" ++
  "              document.querySelector('#submitted-content').textContent =\n" ++
  "                'Please try again or contact support if the problem persists';\n" ++
  "            \x7d\n" ++
  "\n" ++
  "          \x7d finally \x7b\n" ++
  "            event.context.readonly = false;\n" ++
  "\n" ++
  "            if (window.location.href.includes('form-waiting')) \x7b\n" ++
  "\t\t\t\t\t\t\t\tclearTimeout(timeoutId);\n" ++
  "\t\t\t\t\t\t\t\ttimeoutId = setTimeout(checkExecutionStatus, interval);\n" ++
  "\t\t\t\t\t\t\x7d\n" ++
  "          \x7d\n" ++
  "        \x7d\n" ++
  "      \x7d;\n" ++
  "\n" ++
  "      const onHandleAction = (customEvent) => \x7b\n" ++
  "        let [event] = customEvent.detail;\n" ++
  "        if (event.action === 'n8n:submit') \x7b\n" ++
  "          event.callback = submit;\n" ++
  "        \x7d\n" ++
  "      \x7d;\n" ++
  "\n" ++
  "      var form = document.getElementById(\"vuetify-json-forms\");\n" ++
  "      "

def htmlChunk5 : String :=
  "\n" ++
  "      "

def htmlChunk6 : String :=
  "\n" ++
  "      "

def htmlChunk7 : String :=
  "\n" ++
  "      "

def htmlChunk8 : String :=
  "\n" ++
  "      \n" ++
  "      "

def htmlChunk9 : String :=
  "\n" ++
  "      "

def htmlChunk10 : String :=
  "\n" ++
  "      "

def htmlChunk11 : String :=
  "\n" ++
  "      "

def htmlChunk12 : String :=
  "\n" ++
  "\n" ++
  "      form.addEventListener(\"change\", onChange);\n" ++
  "      form.addEventListener(\"handle-action\", onHandleAction);\n" ++
  "    </script>\n" ++
  "\n" ++
  "    <script\n" ++
  "      type=\"module\"\n" ++
  "      src=\"https://cdn.jsdelivr.net/npm/@chobantonov/jsonforms-vuetify-webcomponent@3.6.0/dist/vuetify-json-forms.min.js\"\n" ++
  "    ></script>\n" ++
  "  </body>\n" ++
  "</html>"


/-- The custom-CSS `<style>` slot of the template (line 676): rendered only
when the sanitized CSS is truthy. -/
def customCssStyleBlock (dangerousCustomCss : Option String) : String :=
  if truthyStr dangerousCustomCss then
    "<style>" ++ dangerousCustomCss.getD "" ++ "</style>"
  else ""

/-- The `submitted-content` paragraph slot of the template (lines 687-693):
rendered only when the resolved submitted text is truthy. -/
def submittedContentBlock (formSubmittedText : String) : String :=
  if formSubmittedText != "" then
    "<p id='submitted-content'>\n              " ++ formSubmittedText ++
      "\n            </p>"
  else ""

/-- The hidden redirect anchor slot of the template (line 696): rendered
only when a redirect URL survived resolution. -/
def redirectAnchor (redirectUrl : Option String) : String :=
  if truthyStr redirectUrl then
    "<a id='redirectUrl' href='" ++ redirectUrl.getD "" ++
      "' style='display: none;'></a>"
  else ""

/-- `VuetifyJsonFormsTrigger.generateFormHtml` (lines 521-881): pure string
assembly of the form page from the node configuration; the only call to the
host environment is `sanitizeCustomCss`. -/
def generateFormHtml (host : Host) (cfg : Config) : String :=
  let r := resolveFormResponse cfg.options (cfg.responseMode.getD "") cfg.childNodes
  let useResponseData := r.responseMode == "responseNode"
  let dangerousCustomCss := host.sanitizeCustomCss cfg.options.customCss
  htmlChunk0 ++
  customCssStyleBlock dangerousCustomCss ++
  htmlChunk1 ++
  submittedContentBlock r.formSubmittedText ++
  htmlChunk2 ++
  redirectAnchor r.redirectUrl ++
  htmlChunk3 ++
  (if useResponseData then "true" else "false") ++
  htmlChunk4 ++
  ("form.setAttribute(\"data\"," ++ attrLiteral cfg.data ++ ");") ++
  htmlChunk5 ++
  ("form.setAttribute(\"schema\"," ++ attrLiteral cfg.jsonSchema ++ ");") ++
  htmlChunk6 ++
  ("form.setAttribute(\"uischema\"," ++ attrLiteral cfg.uiSchema ++ ");") ++
  htmlChunk7 ++
  ("form.setAttribute(\"config\"," ++ attrLiteral cfg.config ++ ");") ++
  htmlChunk8 ++
  (if truthyStr cfg.options.vuetifyOptions then
    "form.setAttribute('vuetify-options', " ++
      attrLiteral (cfg.options.vuetifyOptions.getD "") ++ ");"
   else "") ++
  htmlChunk9 ++
  (if truthyStr cfg.options.customStyle then
    "form.setAttribute('custom-style', " ++
      escapeSlashes (jsStringifyOpt (host.sanitizeCustomCss cfg.options.customStyle)) ++ ");"
   else "") ++
  htmlChunk10 ++
  (if truthyStr cfg.options.validationMode then
    "form.setAttribute('validation-mode', " ++
      attrLiteral (cfg.options.validationMode.getD "") ++ ");"
   else "") ++
  htmlChunk11 ++
  (if truthyBool cfg.options.readonly then "form.setAttribute('readonly', '');" else "") ++
  htmlChunk12

/-- What `res.…` sent over the wire: status, headers set, and body (if any). -/
inductive ResponseBody where
  | text (s : String) : ResponseBody
  | jsonBody (j : Json) : ResponseBody

structure HttpResponse where
  status : Nat
  headers : List (String × String) := []
  body : Option ResponseBody := none

/-- Outcome of one `webhook` invocation: either the request was fully
answered at the HTTP layer (`{ noWebhookResponse: true }` after the shown
response was sent), or the POST succeeded and the handler returned
`webhookResponse: { status }` together with `workflowData`. -/
inductive WebhookResult where
  | noResponse (sent : HttpResponse) : WebhookResult
  | output (ackStatus : Nat) (workflowData : List (List Json)) : WebhookResult

/-- The response the webhook's catch block sends for every
`WebhookAuthorizationError` (lines 427-434): HTTP 401 with a Basic
challenge and an empty body, whatever `responseCode` the error carried. -/
def authFailureResponse : HttpResponse :=
  { status := 401
    headers := [("WWW-Authenticate", "Basic realm=\"Enter credentials\"")]
    body := none }

/-- The try block of `webhook` (lines 418-426): the bot filter (a 403
authorization error before any credential check), then authentication. -/
def authGate (host : Host) (cfg : Config) (req : Request) :
    Except WebhookAuthorizationError (Option Json) :=
  if truthyBool cfg.options.ignoreBots && host.isbot req.userAgent then
    Except.error ⟨403, none⟩
  else validateWebhookAuthentication host cfg req

/-- One field of the emitted record: dropped when the JS value is
`undefined`. -/
def optEntry (key : String) (value : Option Json) : List (String × Json) :=
  match value with
  | some j => [(key, j)]
  | none => []

/-- The query parameters as the JSON object spread into the record. -/
def queryJson (q : List (String × String)) : Json :=
  Json.obj (q.map (fun p => (p.fst, Json.str p.snd)))

/-- Luxon's `toISO()` result as a JSON value (`null` when the zone was
invalid). -/
def isoJson : Option String → Json
  | some s => Json.str s
  | none => Json.null

/-- The `json` record of the single `INodeExecutionData` item emitted on a
successful POST (lines 479-501): `data` and `event` from the request body,
`submittedAt` rendered in the workflow timezone (unless
`useWorkflowTimezone` is set to false — unset defaults to true) at the
current instant, `formMode` from the execution mode, and
`formQueryParameters` spread in only when the query has at least one key. -/
def postSuccessRecord (host : Host) (cfg : Config) (req : Request) : Json :=
  Json.obj
    (optEntry "data" (jsonLookup req.body "data") ++
     optEntry "event" (jsonLookup req.body "event") ++
     [("submittedAt",
        isoJson (host.nowISO
          (if cfg.options.useWorkflowTimezone.getD true then host.timezone else "UTC"))),
      ("formMode", Json.str (if host.mode = "manual" then "test" else "production"))] ++
     (if (req.query.getD []) ≠ [] then
        [("formQueryParameters", queryJson (req.query.getD []))]
      else []))

/-- The 400 response of a failed data/event validation (lines 452-475). -/
def validationFailureResponse (message : String) (errors : List Json) : HttpResponse :=
  { status := 400
    headers := [("Content-Type", "application/json")]
    body := some (ResponseBody.jsonBody
      (Json.obj [("message", Json.str message), ("errors", Json.arr errors)])) }

/-- `webhook` after the auth gate (lines 436-510): response-mode validation
(its `NodeOperationError` propagates as `Except.error`), then method
dispatch — GET renders the page, POST validates `data` against the node's
schema and, when an event schema is configured (truthy), `event` against
it, and on success emits exactly one record; any other method gets 405. -/
def webhookAfterAuth (host : Host) (cfg : Config) (req : Request) :
    Except String WebhookResult :=
  match validateResponseModeConfiguration cfg with
  | Except.error e => Except.error e
  | Except.ok _ =>
    if req.method = "GET" then
      Except.ok (WebhookResult.noResponse
        { status := 200, body := some (ResponseBody.text (generateFormHtml host cfg)) })
    else if req.method = "POST" then
      match host.compileValidate cfg.jsonSchema (jsonLookup req.body "data") with
      | e :: rest =>
        Except.ok (WebhookResult.noResponse
          (validationFailureResponse "Data validation failed" (e :: rest)))
      | [] =>
        if truthyStr cfg.options.eventJsonSchema then
          match host.compileValidate (cfg.options.eventJsonSchema.getD "")
              (jsonLookup req.body "event") with
          | e :: rest =>
            Except.ok (WebhookResult.noResponse
              (validationFailureResponse "Event validation failed" (e :: rest)))
          | [] =>
            Except.ok (WebhookResult.output 200 [[postSuccessRecord host cfg req]])
        else
          Except.ok (WebhookResult.output 200 [[postSuccessRecord host cfg req]])
    else
      Except.ok (WebhookResult.noResponse
        { status := 405, body := some (ResponseBody.text "Method not allowed") })

/-- `VuetifyJsonFormsTrigger.webhook` (lines 394-511): the auth gate's
thrown `WebhookAuthorizationError` is caught and answered with the fixed
401 challenge response; then processing continues. -/
def webhook (host : Host) (cfg : Config) (req : Request) : Except String WebhookResult :=
  match authGate host cfg req with
  | Except.error _ => Except.ok (WebhookResult.noResponse authFailureResponse)
  | Except.ok _ => webhookAfterAuth host cfg req

/-- Whether the stored basic credential is unusable — absent, or with a
falsy (empty) user or password — the condition for the 500 error in the
`basicAuth` branch (`utils.ts` lines 106-116). -/
def basicCredIncomplete : Option BasicCred → Bool
  | none => true
  | some cred => cred.user == "" || cred.password == ""

/-- A crawler user-agent string, for concrete instantiations. -/
def botUserAgent : String := "Googlebot/2.1 (+http://www.google.com/bot.html)"

/-- A concrete host environment used to evaluate the handler on closed
inputs: `isbot` recognises exactly `botUserAgent`, the JWT verifier rejects
everything, CSS sanitisation is the identity, the clock is frozen, the
execution is manual, and the schema validator accepts everything. -/
def hostA : Host :=
  { isbot := fun ua => ua == some botUserAgent
    jwtVerify := fun _ _ => Except.error "invalid signature"
    sanitizeCustomCss := fun css => css
    nowISO := fun _ => some "2026-02-03T04:05:06+02:00"
    timezone := "Europe/Sofia"
    mode := "manual"
    compileValidate := fun _ _ => [] }

/-- A node configured for basic authentication with a stored credential. -/
def cfgBasicAuth : Config :=
  { authentication := "basicAuth", basicCred := some ⟨"user", "secret"⟩ }

/-- A POST request presenting the right username but a wrong password. -/
def reqWrongPassword : Request :=
  { method := "POST", providedBasic := some ⟨"user", "wrong"⟩ }

/-- A node with basic auth and the bot filter enabled. -/
def cfgC4 : Config :=
  { authentication := "basicAuth", basicCred := some ⟨"user", "secret"⟩
    options := { ignoreBots := some true } }

/-- A GET request from a crawler. -/
def reqC4 : Request := { method := "GET", userAgent := some botUserAgent }

/-- A valid POST submission with one query parameter. -/
def reqC2 : Request :=
  { method := "POST"
    body := Json.obj [("data", Json.str "hello")]
    query := some [("a", "1")] }

/-- A node whose response mode demands a respond-node that is not there. -/
def cfgC5 : Config := { responseMode := some "responseNode" }

/-- A valid POST submission with no query parameters. -/
def reqC6 : Request := { method := "POST", body := Json.obj [("data", Json.bool true)] }

/-- A valid POST submission carrying one query parameter. -/
def reqC10 : Request :=
  { method := "POST", body := Json.obj [("data", Json.num 1)], query := some [("utm", "x")] }

/-- Options configuring a redirect and no custom submitted text. -/
def optionsRedirectOnly : FormOptions :=
  { respondWithOptions := some { respondWith := "redirect", redirectUrl := some "http://example.com" } }

/-- Options configuring a redirect, for the node of `cfgC9`. -/
def cfgC9Options : FormOptions :=
  { respondWithOptions := some { respondWith := "redirect", redirectUrl := some "http://example.org" } }

/-- A node with a configured redirect and a form node connected downstream. -/
def cfgC9 : Config :=
  { responseMode := some "onReceived"
    options := cfgC9Options
    childNodes := [{ type := FORM_NODE_TYPE }] }

/-! Helper lemmas shared by several claims. -/

theorem lookupField_optEntry_cons (k : String) (v : Option Json)
    (rest : List (String × Json)) (key : String) (hne : k ≠ key) :
    lookupField (optEntry k v ++ rest) key = lookupField rest key := by
  cases v <;> simp [optEntry, lookupField, hne]

theorem jsonLookup_postSuccessRecord_submittedAt (host : Host) (cfg : Config) (req : Request) :
    jsonLookup (postSuccessRecord host cfg req) "submittedAt" =
      some (isoJson (host.nowISO
        (if cfg.options.useWorkflowTimezone.getD true then host.timezone else "UTC"))) := by
  simp only [postSuccessRecord, jsonLookup]
  simp only [List.append_assoc]
  rw [lookupField_optEntry_cons _ _ _ _ (by decide),
    lookupField_optEntry_cons _ _ _ _ (by decide)]
  simp [lookupField]

theorem jsonLookup_postSuccessRecord_formMode (host : Host) (cfg : Config) (req : Request) :
    jsonLookup (postSuccessRecord host cfg req) "formMode" =
      some (Json.str (if host.mode = "manual" then "test" else "production")) := by
  simp only [postSuccessRecord, jsonLookup]
  simp only [List.append_assoc]
  rw [lookupField_optEntry_cons _ _ _ _ (by decide),
    lookupField_optEntry_cons _ _ _ _ (by decide)]
  simp [lookupField]

theorem jsonLookup_postSuccessRecord_query (host : Host) (cfg : Config) (req : Request) :
    jsonLookup (postSuccessRecord host cfg req) "formQueryParameters" =
      (if (req.query.getD []) ≠ [] then some (queryJson (req.query.getD [])) else none) := by
  simp only [postSuccessRecord, jsonLookup]
  simp only [List.append_assoc]
  rw [lookupField_optEntry_cons _ _ _ _ (by decide),
    lookupField_optEntry_cons _ _ _ _ (by decide)]
  by_cases hq : (req.query.getD []) = [] <;> simp [lookupField, hq]

theorem webhook_output_record (host : Host) (cfg : Config) (req : Request)
    (s : Nat) (recss : List (List Json))
    (h : webhook host cfg req = Except.ok (WebhookResult.output s recss)) :
    s = 200 ∧ recss = [[postSuccessRecord host cfg req]] := by
  unfold webhook webhookAfterAuth at h
  split at h
  · simp at h
  · split at h
    · simp at h
    · split at h
      · simp at h
      · split at h
        · split at h
          · simp at h
          · split at h
            · split at h
              · simp at h
              · simp at h; exact ⟨h.1.symm, by rw [h.2]⟩
            · simp at h; exact ⟨h.1.symm, by rw [h.2]⟩
        · simp at h

/-! The claims. -/

/-- C1 counterexample: under `basicAuth`, a request presenting an incorrect
password makes `validateWebhookAuthentication` throw a 403 authorization
error, but the webhook answers it with the fixed HTTP 401 challenge
response — not with status 403 as the claim states. -/
theorem c1_wrong_credentials_answered_401 :
    validateWebhookAuthentication hostA cfgBasicAuth reqWrongPassword =
      Except.error ⟨403, none⟩
    ∧ webhook hostA cfgBasicAuth reqWrongPassword =
        Except.ok (WebhookResult.noResponse authFailureResponse)
    ∧ authFailureResponse.status = 401 ∧ (401 : Nat) ≠ 403 :=
  ⟨rfl, rfl, rfl, by decide⟩

/-- C1 (amended): whenever the bot filter or the authentication routine
raises a `WebhookAuthorizationError` — missing credentials, incorrect
credentials, or a missing stored credential alike — the request is answered
with HTTP 401 carrying a `WWW-Authenticate: Basic` challenge and no body;
when the gate passes, processing continues with the rest of the handler. -/
theorem c1_auth_gate_wire_behavior (host : Host) (cfg : Config) (req : Request) :
    (∀ e : WebhookAuthorizationError, authGate host cfg req = Except.error e →
      webhook host cfg req = Except.ok (WebhookResult.noResponse authFailureResponse))
    ∧ (∀ p : Option Json, authGate host cfg req = Except.ok p →
      webhook host cfg req = webhookAfterAuth host cfg req) := by
  constructor
  · intro e he
    unfold webhook
    rw [he]
  · intro p hp
    unfold webhook
    rw [hp]

theorem c1_auth_gate_wire_behavior_witness :
    webhook hostA cfgBasicAuth reqWrongPassword =
      Except.ok (WebhookResult.noResponse authFailureResponse)
    ∧ webhook hostA { authentication := "none" } { method := "GET" } =
        webhookAfterAuth hostA { authentication := "none" } { method := "GET" } :=
  ⟨(c1_auth_gate_wire_behavior hostA cfgBasicAuth reqWrongPassword).1 ⟨403, none⟩ rfl,
   (c1_auth_gate_wire_behavior hostA { authentication := "none" } { method := "GET" }).2 none rfl⟩

/-- C4 counterexample: with `ignoreBots` enabled, a crawler GET is answered
with HTTP 401 (empty body), not with status 403 as the claim states. -/
theorem c4_bot_request_status :
    webhook hostA cfgC4 reqC4 = Except.ok (WebhookResult.noResponse authFailureResponse)
    ∧ authFailureResponse.status = 401 ∧ (401 : Nat) ≠ 403
    ∧ authFailureResponse.body = none :=
  ⟨rfl, rfl, by decide, rfl⟩

/-- C4 (amended): with `ignoreBots` enabled and a bot user-agent, the gate
raises the 403 authorization error before the authentication routine runs
(the outcome is the same for every credential configuration), and the
request is answered with HTTP 401 and an empty body — no form HTML. -/
theorem c4_bot_filter (host : Host) (cfg : Config) (req : Request)
    (hb : truthyBool cfg.options.ignoreBots = true)
    (hu : host.isbot req.userAgent = true) :
    authGate host cfg req = Except.error ⟨403, none⟩
    ∧ webhook host cfg req = Except.ok (WebhookResult.noResponse authFailureResponse)
    ∧ authFailureResponse.body = none := by
  have h1 : authGate host cfg req = Except.error ⟨403, none⟩ := by
    unfold authGate
    rw [hb, hu]
    rfl
  refine ⟨h1, ?_, rfl⟩
  unfold webhook
  rw [h1]

theorem c4_bot_filter_witness :
    authGate hostA cfgC4 reqC4 = Except.error ⟨403, none⟩
    ∧ webhook hostA cfgC4 reqC4 = Except.ok (WebhookResult.noResponse authFailureResponse)
    ∧ authFailureResponse.body = none :=
  c4_bot_filter hostA cfgC4 reqC4 rfl rfl

/-- C8: form-page generation is a deterministic function of the node
configuration read by `generateFormHtml` — two configurations agreeing on
every parameter it reads (schemas, data, config, response mode, options,
downstream node list) yield byte-identical HTML. -/
theorem c8_generate_form_html_deterministic (host : Host) (c1 c2 : Config)
    (h1 : c1.jsonSchema = c2.jsonSchema) (h2 : c1.uiSchema = c2.uiSchema)
    (h3 : c1.data = c2.data) (h4 : c1.config = c2.config)
    (h5 : c1.responseMode = c2.responseMode) (h6 : c1.options = c2.options)
    (h7 : c1.childNodes = c2.childNodes) :
    generateFormHtml host c1 = generateFormHtml host c2 := by
  unfold generateFormHtml
  rw [h1, h2, h3, h4, h5, h6, h7]

theorem c8_generate_form_html_deterministic_witness :
    generateFormHtml hostA { responseMode := some "onReceived" } =
      generateFormHtml hostA { responseMode := some "onReceived" } :=
  c8_generate_form_html_deterministic hostA
    { responseMode := some "onReceived" } { responseMode := some "onReceived" }
    rfl rfl rfl rfl rfl rfl rfl

/-- C9: when a downstream wait-for-form condition is detected, the page is
generated with response mode `responseNode` and the redirect slot empty —
any configured redirect is discarded. -/
theorem c9_wait_form_overrides (cfg : Config)
    (h : isFormConnected cfg.childNodes = true) :
    (resolveFormResponse cfg.options (cfg.responseMode.getD "") cfg.childNodes).responseMode =
      "responseNode"
    ∧ (resolveFormResponse cfg.options (cfg.responseMode.getD "") cfg.childNodes).redirectUrl =
        none
    ∧ redirectAnchor
        (resolveFormResponse cfg.options (cfg.responseMode.getD "") cfg.childNodes).redirectUrl =
        "" := by
  simp [resolveFormResponse, h, redirectAnchor, truthyStr]

theorem c9_wait_form_overrides_witness :
    (resolveFormResponse cfgC9.options (cfgC9.responseMode.getD "") cfgC9.childNodes).responseMode =
      "responseNode"
    ∧ (resolveFormResponse cfgC9.options (cfgC9.responseMode.getD "") cfgC9.childNodes).redirectUrl =
        none
    ∧ redirectAnchor
        (resolveFormResponse cfgC9.options (cfgC9.responseMode.getD "") cfgC9.childNodes).redirectUrl =
        "" :=
  c9_wait_form_overrides cfgC9 (by decide)

/-- C7 counterexample: with a redirect configured and no custom text, the
resolved submitted text is the default message and its paragraph is still
rendered into the page — contradicting the claim that a configured redirect
prevents the default text. -/
theorem c7_redirect_keeps_default_text :
    (resolveFormResponse optionsRedirectOnly "onReceived" []).redirectUrl =
      some "http://example.com"
    ∧ (resolveFormResponse optionsRedirectOnly "onReceived" []).formSubmittedText =
        defaultFormSubmittedText
    ∧ submittedContentBlock
        (resolveFormResponse optionsRedirectOnly "onReceived" []).formSubmittedText ≠ "" :=
  ⟨rfl, rfl, by decide⟩

/-- C7 (amended): the page's submitted text is the custom text when one is
configured and the default otherwise; the default is applied exactly when
no custom form-submitted text is configured (`respondWithOptions` absent
with no legacy `formSubmittedText`, or present with `respondWith` other
than `text`, or with no text value) — a configured redirect does not
suppress it. -/
theorem c7_default_text (options : FormOptions) (responseMode : String)
    (nodes : List ChildNode) :
    (resolveFormResponse options responseMode nodes).formSubmittedText =
      (customSubmittedText options).getD defaultFormSubmittedText
    ∧ (customSubmittedText options = none ↔
        ((options.respondWithOptions = none ∧ options.formSubmittedText = none)
          ∨ ∃ values, options.respondWithOptions = some values ∧
              (values.respondWith ≠ "text" ∨ values.formSubmittedText = none))) := by
  constructor
  · rfl
  · unfold customSubmittedText
    cases ho : options.respondWithOptions with
    | none => simp [ho]
    | some values =>
      by_cases ht : values.respondWith = "text"
      · simp [ho, ht]
      · simp [ho, ht]

/-- C3: under `basicAuth` the authentication routine throws 500 when the
stored credential is unusable (absent, or with an empty user or password),
401 when the request carries no decodable Basic authorization header, 403
when the decoded pair differs from the stored one, and returns normally
exactly when the pair matches verbatim. -/
theorem c3_basic_auth_dispatch (host : Host) (cfg : Config) (req : Request)
    (ha : cfg.authentication = "basicAuth") :
    (basicCredIncomplete cfg.basicCred = true →
      validateWebhookAuthentication host cfg req =
        Except.error ⟨500, some noAuthDataMessage⟩)
    ∧ (basicCredIncomplete cfg.basicCred = false → req.providedBasic = none →
      validateWebhookAuthentication host cfg req = Except.error ⟨401, none⟩)
    ∧ (∀ cred provided, cfg.basicCred = some cred →
        basicCredIncomplete cfg.basicCred = false → req.providedBasic = some provided →
        provided.user ≠ cred.user ∨ provided.password ≠ cred.password →
        validateWebhookAuthentication host cfg req = Except.error ⟨403, none⟩)
    ∧ (validateWebhookAuthentication host cfg req = Except.ok none ↔
        ∃ cred provided, cfg.basicCred = some cred ∧
          ¬(cred.user = "" ∨ cred.password = "") ∧
          req.providedBasic = some provided ∧
          provided.user = cred.user ∧ provided.password = cred.password) := by
  refine ⟨?_, ?_, ?_, ?_, ?_⟩
  case _ =>
    intro hbad
    cases hc : cfg.basicCred with
    | none =>
      unfold validateWebhookAuthentication
      rw [ha, hc]
      simp
    | some cred =>
      rw [hc] at hbad
      simp [basicCredIncomplete] at hbad
      unfold validateWebhookAuthentication
      rw [ha, hc]
      simp [hbad]
  case _ =>
    intro hgood hp
    cases hc : cfg.basicCred with
    | none => rw [hc] at hgood; simp [basicCredIncomplete] at hgood
    | some cred =>
      rw [hc] at hgood
      simp [basicCredIncomplete] at hgood
      unfold validateWebhookAuthentication
      rw [ha, hc, hp]
      simp [hgood.1, hgood.2]
  case _ =>
    intro cred provided hc hgood hp hne
    rw [hc] at hgood
    simp [basicCredIncomplete] at hgood
    unfold validateWebhookAuthentication
    rw [ha, hc, hp]
    simp [hgood.1, hgood.2, hne]
  case _ =>
    intro hok
    unfold validateWebhookAuthentication at hok
    rw [ha] at hok
    cases hc : cfg.basicCred with
    | none => rw [hc] at hok; simp at hok
    | some cred =>
      rw [hc] at hok
      by_cases hbad : cred.user = "" ∨ cred.password = ""
      · simp [hbad] at hok
      · cases hp : req.providedBasic with
        | none => rw [hp] at hok; simp [hbad] at hok
        | some provided =>
          rw [hp] at hok
          by_cases hne : provided.user ≠ cred.user ∨ provided.password ≠ cred.password
          · simp [hbad, hne] at hok
          · push_neg at hne
            exact ⟨cred, provided, rfl, hbad, rfl, hne.1, hne.2⟩
  case _ =>
    rintro ⟨cred, provided, hc, hbad, hp, hu2, hpw⟩
    unfold validateWebhookAuthentication
    rw [ha, hc, hp]
    simp [hbad, hu2, hpw]

theorem c3_basic_auth_dispatch_witness :
    validateWebhookAuthentication hostA cfgBasicAuth
      { method := "POST", providedBasic := some ⟨"user", "secret"⟩ } = Except.ok none :=
  (c3_basic_auth_dispatch hostA cfgBasicAuth
      { method := "POST", providedBasic := some ⟨"user", "secret"⟩ } rfl).2.2.2.mpr
    ⟨⟨"user", "secret"⟩, ⟨"user", "secret"⟩, rfl, by decide, rfl, rfl, rfl⟩

/-- C5: the response-mode validator raises its configuration error exactly
when mode `responseNode` has no respond-node downstream, or a respond-node
is connected while the mode is different and the node version is at most
2.1, or a respond-node is connected under a version above 2.1; and on any
request that passed the auth gate, the error propagates out of the handler
as a workflow-level error before method dispatch. -/
theorem c5_response_mode_validation (cfg : Config) :
    ((∃ e, validateResponseModeConfiguration cfg = Except.error e) ↔
      (respondToWebhookConnected cfg.childNodes = false ∧
        cfg.responseMode.getD "onReceived" = "responseNode")
      ∨ (respondToWebhookConnected cfg.childNodes = true ∧
          cfg.responseMode.getD "onReceived" ≠ "responseNode" ∧ cfg.typeVersion ≤ 2.1)
      ∨ (respondToWebhookConnected cfg.childNodes = true ∧ cfg.typeVersion > 2.1))
    ∧ (∀ host req p e, authGate host cfg req = Except.ok p →
        validateResponseModeConfiguration cfg = Except.error e →
        webhook host cfg req = Except.error e) := by
  constructor
  · unfold validateResponseModeConfiguration
    split_ifs with h1 h2 h3
    · exact iff_of_true ⟨_, rfl⟩ (Or.inl h1)
    · exact iff_of_true ⟨_, rfl⟩ (Or.inr (Or.inl h2))
    · exact iff_of_true ⟨_, rfl⟩ (Or.inr (Or.inr h3))
    · refine iff_of_false ?_ (by tauto)
      rintro ⟨e, h⟩
      simp at h
  · intro host req p e hp he
    unfold webhook
    rw [hp]
    unfold webhookAfterAuth
    rw [he]

theorem c5_response_mode_validation_witness :
    webhook hostA cfgC5 { method := "GET" } =
      Except.error "No Respond to Webhook node found in the workflow"
    ∧ (∃ e, validateResponseModeConfiguration cfgC5 = Except.error e) :=
  ⟨(c5_response_mode_validation cfgC5).2 hostA { method := "GET" } none
      "No Respond to Webhook node found in the workflow" rfl rfl,
   (c5_response_mode_validation cfgC5).1.mpr (Or.inl (by decide))⟩

theorem jsonLookup_postSuccessRecord_data (host : Host) (cfg : Config) (req : Request)
    (P : Json) (hdata : jsonLookup req.body "data" = some P) :
    jsonLookup (postSuccessRecord host cfg req) "data" = some P := by
  unfold postSuccessRecord
  rw [hdata]
  simp [optEntry, jsonLookup, lookupField]

/-- C2: for a POST that passed the auth gate and response-mode validation,
with the submitted payload's `data` field equal to P: if P satisfies the
configured schema (and, when an event schema is configured, the `event`
field satisfies it), the handler acknowledges with status 200 and emits
exactly one workflow record whose `data` field equals P; otherwise it
responds 400 with a JSON body holding a message and the non-empty error
list, and emits no workflow data. -/
theorem c2_post_validation_contract (host : Host) (cfg : Config) (req : Request) (P : Json)
    (hm : req.method = "POST")
    (hauth : ∃ p, authGate host cfg req = Except.ok p)
    (hrm : validateResponseModeConfiguration cfg = Except.ok ())
    (hdata : jsonLookup req.body "data" = some P) :
    (host.compileValidate cfg.jsonSchema (some P) = [] →
      (truthyStr cfg.options.eventJsonSchema = true →
        host.compileValidate (cfg.options.eventJsonSchema.getD "")
          (jsonLookup req.body "event") = []) →
      webhook host cfg req =
        Except.ok (WebhookResult.output 200 [[postSuccessRecord host cfg req]])
      ∧ jsonLookup (postSuccessRecord host cfg req) "data" = some P)
    ∧ (∀ errs, host.compileValidate cfg.jsonSchema (some P) = errs → errs ≠ [] →
        webhook host cfg req =
          Except.ok (WebhookResult.noResponse
            (validationFailureResponse "Data validation failed" errs)))
    ∧ (∀ errs, host.compileValidate cfg.jsonSchema (some P) = [] →
        truthyStr cfg.options.eventJsonSchema = true →
        host.compileValidate (cfg.options.eventJsonSchema.getD "")
          (jsonLookup req.body "event") = errs →
        errs ≠ [] →
        webhook host cfg req =
          Except.ok (WebhookResult.noResponse
            (validationFailureResponse "Event validation failed" errs))) := by
  obtain ⟨p, hp⟩ := hauth
  have hw : webhook host cfg req = webhookAfterAuth host cfg req := by
    unfold webhook
    rw [hp]
  have hbase : webhookAfterAuth host cfg req =
      (match host.compileValidate cfg.jsonSchema (some P) with
       | e :: rest =>
         Except.ok (WebhookResult.noResponse
           (validationFailureResponse "Data validation failed" (e :: rest)))
       | [] =>
         if truthyStr cfg.options.eventJsonSchema then
           match host.compileValidate (cfg.options.eventJsonSchema.getD "")
               (jsonLookup req.body "event") with
           | e :: rest =>
             Except.ok (WebhookResult.noResponse
               (validationFailureResponse "Event validation failed" (e :: rest)))
           | [] => Except.ok (WebhookResult.output 200 [[postSuccessRecord host cfg req]])
         else Except.ok (WebhookResult.output 200 [[postSuccessRecord host cfg req]])) := by
    unfold webhookAfterAuth
    rw [hrm, hm, hdata]
    simp
  refine ⟨?_, ?_, ?_⟩
  · intro hv he
    refine ⟨?_, jsonLookup_postSuccessRecord_data host cfg req P hdata⟩
    rw [hw, hbase, hv]
    by_cases ht : truthyStr cfg.options.eventJsonSchema = true
    · rw [if_pos ht, he ht]
    · rw [if_neg ht]
  · intro errs hv hne
    rw [hw, hbase, hv]
    cases errs with
    | nil => exact absurd rfl hne
    | cons e rest => rfl
  · intro errs hv ht he hne
    rw [hw, hbase, hv, if_pos ht, he]
    cases errs with
    | nil => exact absurd rfl hne
    | cons e rest => rfl

theorem c2_post_validation_contract_witness :
    webhook hostA { jsonSchema := "schema" } reqC2 =
      Except.ok (WebhookResult.output 200
        [[postSuccessRecord hostA { jsonSchema := "schema" } reqC2]])
    ∧ jsonLookup (postSuccessRecord hostA { jsonSchema := "schema" } reqC2) "data" =
        some (Json.str "hello") :=
  (c2_post_validation_contract hostA { jsonSchema := "schema" } reqC2 (Json.str "hello")
    rfl ⟨none, rfl⟩ rfl rfl).1 rfl (fun _ => rfl)

/-- C6: every successfully emitted record carries a `submittedAt` rendered
at the current instant in the workflow timezone when `useWorkflowTimezone`
is true or unset (the default is true) and in UTC when it is false, and a
`formMode` equal to `test` exactly when the execution mode is manual and
`production` otherwise; neither value depends on the client request. -/
theorem c6_submitted_at_form_mode (host : Host) (cfg : Config) (req : Request) (rec : Json)
    (h : webhook host cfg req = Except.ok (WebhookResult.output 200 [[rec]])) :
    jsonLookup rec "submittedAt" =
      some (isoJson (host.nowISO
        (if cfg.options.useWorkflowTimezone.getD true then host.timezone else "UTC")))
    ∧ jsonLookup rec "formMode" =
      some (Json.str (if host.mode = "manual" then "test" else "production")) := by
  obtain ⟨-, hrec⟩ := webhook_output_record host cfg req 200 [[rec]] h
  have hr : rec = postSuccessRecord host cfg req := by simpa using hrec
  rw [hr]
  exact ⟨jsonLookup_postSuccessRecord_submittedAt host cfg req,
    jsonLookup_postSuccessRecord_formMode host cfg req⟩

theorem c6_submitted_at_form_mode_witness :
    jsonLookup (postSuccessRecord hostA {} reqC6) "submittedAt" =
      some (isoJson (hostA.nowISO
        (if ({} : Config).options.useWorkflowTimezone.getD true then hostA.timezone else "UTC")))
    ∧ jsonLookup (postSuccessRecord hostA {} reqC6) "formMode" =
      some (Json.str (if hostA.mode = "manual" then "test" else "production")) :=
  c6_submitted_at_form_mode hostA {} reqC6 (postSuccessRecord hostA {} reqC6) rfl

/-- C10: the emitted record carries `formQueryParameters` (equal to the
query object) exactly when the request's query object is present with at
least one key; when the query is absent or empty, the field is omitted. -/
theorem c10_query_parameters (host : Host) (cfg : Config) (req : Request) (rec : Json)
    (h : webhook host cfg req = Except.ok (WebhookResult.output 200 [[rec]])) :
    ((∃ l, req.query = some l ∧ l ≠ []) →
      jsonLookup rec "formQueryParameters" = some (queryJson (req.query.getD [])))
    ∧ (req.query = none ∨ req.query = some [] →
      jsonLookup rec "formQueryParameters" = none) := by
  obtain ⟨-, hrec⟩ := webhook_output_record host cfg req 200 [[rec]] h
  have hr : rec = postSuccessRecord host cfg req := by simpa using hrec
  rw [hr]
  constructor
  · rintro ⟨l, hl, hne⟩
    rw [jsonLookup_postSuccessRecord_query, hl]
    simp [hne]
  · rintro (hq | hq) <;> rw [jsonLookup_postSuccessRecord_query] <;> simp [hq]

theorem c10_query_parameters_witness :
    jsonLookup (postSuccessRecord hostA {} reqC10) "formQueryParameters" =
      some (queryJson (reqC10.query.getD [])) :=
  (c10_query_parameters hostA {} reqC10 (postSuccessRecord hostA {} reqC10) rfl).1
    ⟨[("utm", "x")], rfl, by decide⟩
